import Mathlib

/-!
Verification of the Prestoras loan-ledger engine.

Shallow embedding of the core business logic of the repository:
loan schedule generation, penalty accrual, payment allocation,
refinancing, client classification and the mutation handlers that
drive them (apps/loans/models.py, apps/loans/mutations.py,
apps/payments/models.py, apps/payments/mutations.py,
apps/clients/models.py).

Modelling conventions:
* Monetary amounts are Python `Decimal` values in the source; they are
  modelled as exact rationals (ℚ).  Every arithmetic step taken by the
  source on the quantities below (division by the installment count,
  multiplication, addition, subtraction, `min`) is exact in ℚ.
* Dates are modelled as integers (days); `timezone.now().date()` is an
  explicit `today : Int` parameter threaded through the functions.
* Enumerated fields (`status`, `periodicity`, `penalty_type`,
  `payment_method`) are strings, exactly as stored by the Django models.
* Django querysets over a table become explicit lists.  Installment
  rows of a loan are stored in `installment_number` order (the order in
  which `bulk_create` writes them); the allocation query
  `order_by('installment_number')` is therefore the identity on the
  loan's rows, and the embedding walks the stored list in order.
* `transaction.atomic` blocks are modelled with `Except`: a raised
  exception inside the block discards every tentative write and the
  caller observes the original state together with a failure result.
-/

namespace Prestoras

/-- Loan row (apps/loans/models.py, class Loan). -/
structure Loan where
  id : Nat
  company_id : Nat
  client_id : Nat
  initial_amount : ℚ
  interest_rate : ℚ
  number_of_installments : Nat
  periodicity : String
  start_date : Int
  end_date : Int
  total_amount : ℚ
  paid_amount : ℚ
  pending_amount : ℚ
  penalty_type : Option String
  penalty_amount : ℚ
  penalty_percentage : ℚ
  penalty_applied : ℚ
  status : String
  original_loan : Option Nat
  is_refinanced : Bool
  observations : Option String
deriving DecidableEq

/-- Installment row (apps/loans/models.py, class Installment). -/
structure Installment where
  id : Nat
  loan_id : Nat
  installment_number : Nat
  due_date : Int
  capital_amount : ℚ
  interest_amount : ℚ
  total_amount : ℚ
  paid_amount : ℚ
  status : String
deriving DecidableEq

/-- Payment row (apps/payments/models.py, class Payment). -/
structure Payment where
  id : Nat
  company_id : Nat
  loan_id : Nat
  client_id : Nat
  amount : ℚ
  payment_date : Int
  payment_method : String
  collector_id : Option Nat
  status : String
  observations : Option String
deriving DecidableEq

/-- PaymentInstallment row (apps/payments/models.py). -/
structure PaymentInstallment where
  payment_id : Nat
  installment_id : Nat
  amount_applied : ℚ
deriving DecidableEq

/-- Refinancing row (apps/loans/models.py, class Refinancing). -/
structure Refinancing where
  original_loan_id : Nat
  new_loan_id : Nat
  outstanding_balance : ℚ
  refinanced_amount : ℚ
  interest_rate : ℚ
  new_period_days : Int
  status : String
deriving DecidableEq

/-- Client row, reduced to the fields the engine reads and writes
(apps/clients/models.py, class Client). -/
structure Client where
  id : Nat
  company_id : Nat
  classification : String
deriving DecidableEq

/-- A collector user, reduced to the fields create_payment reads
(apps/users/models.py). -/
structure User where
  id : Nat
  company_id : Nat
deriving DecidableEq

/-- The tenant database: one list per table the engine touches. -/
structure DB where
  companies : List Nat
  loan_types : List (Nat × Nat)
  users : List User
  clients : List Client
  loans : List Loan
  installments : List Installment
  payments : List Payment
  payment_installments : List PaymentInstallment
  refinancings : List Refinancing
deriving DecidableEq

/-- Loan.calculate_total_amount (apps/loans/models.py lines 237-245):
total = initial + initial*rate/100; pending = total - paid. -/
def Loan.calculate_total_amount (loan : Loan) : Loan :=
  let interest := loan.initial_amount * loan.interest_rate / 100
  let total := loan.initial_amount + interest
  { loan with total_amount := total, pending_amount := total - loan.paid_amount }

/-- Loan.calculate_penalty (apps/loans/models.py lines 247-276).
Returns the value the method returns together with the (possibly)
updated loan row.  `penalty_amount`/`penalty_percentage` truthiness in
Python (`and self.penalty_amount`) is nonzero-ness here (a NULL field
is modelled as 0). -/
def Loan.calculate_penalty (loan : Loan) (today : Int) : ℚ × Loan :=
  if loan.status = "COMPLETED" ∨ loan.status = "CANCELLED" then
    (0, loan)
  else if today ≤ loan.end_date then
    (0, loan)
  else
    let days_overdue : Int := today - loan.end_date
    let penalty : ℚ :=
      if loan.penalty_type = some "FIXED" ∧ loan.penalty_amount ≠ 0 then
        loan.penalty_amount * (days_overdue : ℚ)
      else if loan.penalty_type = some "PERCENTAGE" ∧ loan.penalty_percentage ≠ 0 then
        (loan.pending_amount * loan.penalty_percentage) / 100 * (days_overdue : ℚ)
      else 0
    (penalty, { loan with penalty_applied := penalty })

/-- Installment.update_status (apps/loans/models.py lines 377-390):
status is recomputed from paid_amount, total_amount and today. -/
def Installment.update_status (inst : Installment) (today : Int) : Installment :=
  if inst.paid_amount ≥ inst.total_amount then { inst with status := "PAID" }
  else if inst.paid_amount > 0 then { inst with status := "PARTIALLY_PAID" }
  else if today > inst.due_date then { inst with status := "OVERDUE" }
  else { inst with status := "PENDING" }

/-- capital_per_installment = initial_amount / N
(apps/loans/mutations.py line 70). -/
def capital_per_installment (loan : Loan) : ℚ :=
  loan.initial_amount / (loan.number_of_installments : ℚ)

/-- total_interest = initial_amount * interest_rate / 100
(apps/loans/mutations.py line 71). -/
def total_interest (loan : Loan) : ℚ :=
  loan.initial_amount * loan.interest_rate / 100

/-- interest_per_installment = total_interest / N
(apps/loans/mutations.py line 72). -/
def interest_per_installment (loan : Loan) : ℚ :=
  total_interest loan / (loan.number_of_installments : ℚ)

/-- Day interval per due date (apps/loans/mutations.py lines 76-84);
the CUSTOM entry `int((end-start).days / N)` truncates toward zero,
and an unknown periodicity falls back to 1 (dict .get default). -/
def day_interval (loan : Loan) : Int :=
  if loan.periodicity = "DAILY" then 1
  else if loan.periodicity = "WEEKLY" then 7
  else if loan.periodicity = "BIWEEKLY" then 14
  else if loan.periodicity = "MONTHLY" then 30
  else if loan.periodicity = "QUARTERLY" then 90
  else if loan.periodicity = "CUSTOM" then
    Int.tdiv (loan.end_date - loan.start_date) (loan.number_of_installments : Int)
  else 1

/-- Body of the generation loop of generate_installments for the k-th
iteration (0-based k, installment_number k+1): the last installment is
due exactly on end_date and absorbs the rounding remainder of capital
and interest (apps/loans/mutations.py lines 88-110). -/
def installment_payload (loan : Loan) (k : Nat) : Installment :=
  let n := loan.number_of_installments
  let is_last : Prop := k + 1 = n
  let due_date := if is_last then loan.end_date
                  else loan.start_date + (k : Int) * day_interval loan
  let capital :=
    if is_last then
      loan.initial_amount - capital_per_installment loan * ((n : ℚ) - 1)
    else capital_per_installment loan
  let interest :=
    if is_last then
      total_interest loan - interest_per_installment loan * ((n : ℚ) - 1)
    else interest_per_installment loan
  { id := 0
    loan_id := loan.id
    installment_number := k + 1
    due_date := due_date
    capital_amount := capital
    interest_amount := interest
    total_amount := capital + interest
    paid_amount := 0
    status := "PENDING" }

/-- generate_installments (apps/loans/mutations.py lines 59-114).
Python raises decimal.DivisionByZero when number_of_installments = 0
(the first statement divides by it); this is the `.error` case. -/
def generate_installments (loan : Loan) : Except String (List Installment) :=
  if loan.number_of_installments = 0 then
    .error "DivisionByZero"
  else
    .ok ((List.range loan.number_of_installments).map (installment_payload loan))

/-- Client.update_classification (apps/clients/models.py lines 147-177),
as a function of the statuses of the client's loans.  The float
comparison `defaulting_count >= total_count * 0.5` is exact for the
integer magnitudes involved and is modelled over ℚ. -/
def classify (statuses : List String) : String :=
  if statuses.isEmpty then "REGULAR"
  else
    let defaulting_count := (statuses.filter (fun s => s = "DEFAULTING" ∨ s = "REFINANCED")).length
    let completed_count := (statuses.filter (fun s => s = "COMPLETED")).length
    let total_count := statuses.length
    if defaulting_count = 0 ∧ completed_count > 0 then "PUNCTUAL"
    else if (defaulting_count : ℚ) ≥ (total_count : ℚ) * (1 / 2) then "SEVERELY_DEFAULTING"
    else if defaulting_count > 0 then "DEFAULTING"
    else "REGULAR"

/-- Statuses of one client's loans, in table order. -/
def DB.client_loan_statuses (db : DB) (client_id : Nat) : List String :=
  ((db.loans.filter (fun l => l.client_id = client_id)).map Loan.status)

/-- Client.update_classification applied to the database: recompute the
classification of one client from their loans and store it. -/
def DB.update_classification (db : DB) (client_id : Nat) : DB :=
  let c := classify (db.client_loan_statuses client_id)
  { db with clients := db.clients.map (fun cl =>
      if cl.id = client_id then { cl with classification := c } else cl) }

/-- Look a loan up by primary key. -/
def DB.find_loan (db : DB) (loan_id : Nat) : Option Loan :=
  db.loans.find? (fun l => l.id = loan_id)

/-- Write a loan row back (UPDATE by primary key). -/
def DB.save_loan (db : DB) (loan : Loan) : DB :=
  { db with loans := db.loans.map (fun l => if l.id = loan.id then loan else l) }

/-- INSERT or UPDATE a payment row by primary key (Django Model.save). -/
def DB.save_payment_row (db : DB) (p : Payment) : DB :=
  if db.payments.any (fun q => q.id = p.id) then
    { db with payments := db.payments.map (fun q => if q.id = p.id then p else q) }
  else
    { db with payments := db.payments ++ [p] }

/-- The installment statuses Payment._update_installments selects
(apps/payments/models.py lines 180-183). -/
def eligible (inst : Installment) : Bool :=
  inst.status = "PENDING" ∨ inst.status = "OVERDUE" ∨ inst.status = "PARTIALLY_PAID"

/-- PaymentInstallment.objects.update_or_create keyed on the
(payment, installment) pair (apps/payments/models.py lines 197-201). -/
def upsert_pi (pis : List PaymentInstallment) (pid iid : Nat) (amt : ℚ) :
    List PaymentInstallment :=
  if pis.any (fun x => x.payment_id = pid ∧ x.installment_id = iid) then
    pis.map (fun x =>
      if x.payment_id = pid ∧ x.installment_id = iid then
        { x with amount_applied := amt }
      else x)
  else
    pis ++ [⟨pid, iid, amt⟩]

/-- Payment._update_installments (apps/payments/models.py lines
172-205).  The queryset filters the loan's rows whose status is in
{PENDING, OVERDUE, PARTIALLY_PAID} and orders them by
installment_number; the table stores a loan's rows in that order, so
the embedding walks the stored rows, skipping the rows the filter
drops.  Returns (left-over amount, updated installment table, updated
PaymentInstallment table). -/
def distribute (today : Int) (pid : Nat) (lid : Nat) :
    ℚ → List Installment → List PaymentInstallment →
    ℚ × List Installment × List PaymentInstallment
  | r, [], pis => (r, [], pis)
  | r, inst :: rest, pis =>
    if inst.loan_id = lid ∧ eligible inst then
      if r ≤ 0 then (r, inst :: rest, pis)
      else
        let need := inst.total_amount - inst.paid_amount
        let app := min r need
        if app ≤ 0 then
          let res := distribute today pid lid r rest pis
          (res.1, inst :: res.2.1, res.2.2)
        else
          let inst2 := Installment.update_status
            { inst with paid_amount := inst.paid_amount + app } today
          let res := distribute today pid lid (r - app) rest (upsert_pi pis pid inst.id app)
          (res.1, inst2 :: res.2.1, res.2.2)
    else
      let res := distribute today pid lid r rest pis
      (res.1, inst :: res.2.1, res.2.2)

/-- Step 1 of Payment.save (apps/payments/models.py lines 146-151):
apply the amount to the penalty first, up to reducing it to zero.
Returns the updated loan and the remaining amount. -/
def allocate_to_penalty (loan : Loan) (amount : ℚ) : Loan × ℚ :=
  if loan.penalty_applied > 0 ∧ amount > 0 then
    let amount_to_penalty := min amount loan.penalty_applied
    ({ loan with penalty_applied := loan.penalty_applied - amount_to_penalty },
     amount - amount_to_penalty)
  else (loan, amount)

/-- Step 3 of Payment.save (apps/payments/models.py lines 157-167):
refresh the loan aggregates after the full payment amount. -/
def refresh_loan_aggregates (loan : Loan) (amount : ℚ) (today : Int) : Loan :=
  let paid := loan.paid_amount + amount
  let pending := loan.total_amount - paid
  let st :=
    if pending ≤ 0 then "COMPLETED"
    else if loan.end_date < today then "DEFAULTING"
    else loan.status
  { loan with paid_amount := paid, pending_amount := pending, status := st }

/-- Payment.save (apps/payments/models.py lines 132-170): persist the
row, then — every time it runs with status COMPLETED — apply the
amount to the penalty first, distribute the remainder over the loan's
pending installments, refresh the loan aggregates and the client
classification. -/
def payment_save (db : DB) (p : Payment) (today : Int) : DB :=
  let db0 := db.save_payment_row p
  if p.status = "COMPLETED" then
    match db0.find_loan p.loan_id with
    | none => db0
    | some loan =>
      let step1 := allocate_to_penalty loan p.amount
      let db1 := db0.save_loan step1.1
      let step2 :=
        if step1.2 > 0 then
          distribute today p.id p.loan_id step1.2 db1.installments db1.payment_installments
        else (step1.2, db1.installments, db1.payment_installments)
      let db2 := { db1 with installments := step2.2.1, payment_installments := step2.2.2 }
      let loan2 := refresh_loan_aggregates step1.1 p.amount today
      let db3 := db2.save_loan loan2
      db3.update_classification p.client_id
  else db0

/-- Input type for one payment method share (apps/payments/mutations.py). -/
structure PaymentMethodInput where
  method : String
  amount : ℚ
deriving DecidableEq

/-- Result of create_payment, reduced to the observable flags. -/
structure CreatePaymentResult where
  success : Bool
  message : String
deriving DecidableEq

/-- Result of update_payment. -/
structure UpdatePaymentResult where
  success : Bool
  message : String
deriving DecidableEq

/-- Result of create_loan. -/
structure CreateLoanResult where
  success : Bool
  message : String
deriving DecidableEq

/-- Result of update_loan. -/
structure UpdateLoanResult where
  success : Bool
  message : String
deriving DecidableEq

/-- Result of refinance_loan. -/
structure RefinanceLoanResult where
  success : Bool
  message : String
deriving DecidableEq

/-- Result of delete_loan. -/
structure DeleteLoanResult where
  success : Bool
  message : String
deriving DecidableEq

/-- Fresh primary key for a payment row. -/
def next_payment_id (db : DB) : Nat :=
  (db.payments.map Payment.id).foldr max 0 + 1

/-- Fresh primary key for a loan row. -/
def next_loan_id (db : DB) : Nat :=
  (db.loans.map Loan.id).foldr max 0 + 1

/-- Fresh primary key for an installment row. -/
def next_installment_id (db : DB) : Nat :=
  (db.installments.map Installment.id).foldr max 0 + 1

/-- Installment.objects.bulk_create: append the generated rows with
fresh sequential primary keys. -/
def DB.insert_installments (db : DB) (insts : List Installment) : DB :=
  let base := next_installment_id db
  { db with installments :=
      db.installments ++ insts.enum.map (fun p => { p.2 with id := base + p.1 }) }

/-- PaymentInstallment.objects.create: raises IntegrityError when a row
for the same (payment, installment) pair already exists
(unique_together, apps/payments/models.py line 265). -/
def create_pi (pis : List PaymentInstallment) (pid iid : Nat) (amt : ℚ) :
    Except String (List PaymentInstallment) :=
  if pis.any (fun x => x.payment_id = pid ∧ x.installment_id = iid) then
    .error "IntegrityError"
  else .ok (pis ++ [⟨pid, iid, amt⟩])

/-- The loop of create_payment over the caller-selected installments
(apps/payments/mutations.py lines 164-186): walks the selected rows in
installment_number order, applying min(remaining, need) to each with no
positivity guard, creating a PaymentInstallment row each time. -/
def apply_selected (today : Int) (pid lid : Nat) (ids : List Nat) :
    ℚ → List Installment → List PaymentInstallment →
    Except String (ℚ × List Installment × List PaymentInstallment)
  | r, [], pis => .ok (r, [], pis)
  | r, inst :: rest, pis =>
    if inst.loan_id = lid ∧ ids.contains inst.id then
      if r ≤ 0 then .ok (r, inst :: rest, pis)
      else
        let need := inst.total_amount - inst.paid_amount
        let app := min r need
        match create_pi pis pid inst.id app with
        | .error e => .error e
        | .ok pis1 =>
          let inst2 := Installment.update_status
            { inst with paid_amount := inst.paid_amount + app } today
          match apply_selected today pid lid ids (r - app) rest pis1 with
          | .error e => .error e
          | .ok res => .ok (res.1, inst2 :: res.2.1, res.2.2)
    else
      match apply_selected today pid lid ids r rest pis with
      | .error e => .error e
      | .ok res => .ok (res.1, inst :: res.2.1, res.2.2)

/-- create_payment (apps/payments/mutations.py lines 43-203).  Note the
validations: loan lookup by id (unscoped), collector lookup scoped to
the loan's company, selected installments must belong to the loan,
payment methods must be valid and sum to the amount (within 0.01), and
the amount must not exceed pending + penalty.  There is no check that
the amount is positive.  An exception anywhere (IntegrityError from the
duplicate PaymentInstallment create) rolls the whole transaction back. -/
def create_payment (db : DB) (loan_id : Nat) (amount : ℚ) (payment_date : Int)
    (collector_id : Nat) (installment_ids : List Nat)
    (payment_methods : List PaymentMethodInput) (notes : Option String)
    (today : Int) : DB × CreatePaymentResult :=
  match db.find_loan loan_id with
  | none => (db, ⟨false, "Prestamo no encontrado"⟩)
  | some loan =>
    match db.users.find? (fun u => u.id = collector_id ∧ u.company_id = loan.company_id) with
    | none => (db, ⟨false, "Cobrador no encontrado"⟩)
    | some _u =>
      let selected := db.installments.filter
        (fun i => i.loan_id = loan_id ∧ installment_ids.contains i.id)
      if selected.length ≠ installment_ids.length then
        (db, ⟨false, "Alguna cuota especificada no existe o no pertenece a este prestamo"⟩)
      else
        let valid_methods := ["CASH", "CARD", "BCP", "YAPE", "PLIN", "TRANSFER"]
        if payment_methods.any (fun m => ¬ valid_methods.contains m.method) then
          (db, ⟨false, "Metodo de pago invalido"⟩)
        else
          let total_methods_amount := (payment_methods.map PaymentMethodInput.amount).sum
          if |total_methods_amount - amount| > (1 : ℚ) / 100 then
            (db, ⟨false, "La suma de metodos de pago no coincide con el monto total"⟩)
          else if amount > loan.pending_amount + loan.penalty_applied then
            (db, ⟨false, "El monto del pago excede el saldo pendiente mas mora"⟩)
          else
            let main_method := ((payment_methods.head?).map PaymentMethodInput.method).getD "CASH"
            let p : Payment :=
              { id := next_payment_id db
                company_id := loan.company_id
                loan_id := loan_id
                client_id := loan.client_id
                amount := amount
                payment_date := payment_date
                payment_method := main_method
                collector_id := some collector_id
                status := "COMPLETED"
                observations := notes }
            let db1 := payment_save db p today
            match apply_selected today p.id loan_id installment_ids amount
                db1.installments db1.payment_installments with
            | .error _ => (db, ⟨false, "Error al registrar pago: IntegrityError"⟩)
            | .ok res =>
              let db2 := { db1 with installments := res.2.1, payment_installments := res.2.2 }
              let db3 :=
                match db2.find_loan loan_id with
                | none => db2
                | some loan3 => db2.save_loan (loan3.calculate_penalty today).2
              (db3, ⟨true, "Pago registrado exitosamente"⟩)

/-- update_payment (apps/payments/mutations.py lines 206-281): optional
field edits with validation, then payment.save() — which re-runs the
full allocation whenever the payment status is COMPLETED. -/
def update_payment (db : DB) (payment_id : Nat) (amount : Option ℚ)
    (payment_date : Option Int) (payment_methods : Option (List PaymentMethodInput))
    (notes : Option String) (today : Int) : DB × UpdatePaymentResult :=
  match db.payments.find? (fun q => q.id = payment_id) with
  | none => (db, ⟨false, "Pago no encontrado"⟩)
  | some p0 =>
    let s1 : Except String Payment :=
      match amount with
      | none => .ok p0
      | some a =>
        if a ≤ 0 then .error "El monto debe ser mayor a cero"
        else .ok { p0 with amount := a }
    match s1 with
    | .error e => (db, ⟨false, e⟩)
    | .ok p1 =>
      let p2 :=
        match payment_date with
        | none => p1
        | some d => { p1 with payment_date := d }
      let s3 : Except String Payment :=
        match payment_methods with
        | none => .ok p2
        | some ms =>
          let valid_methods := ["CASH", "CARD", "BCP", "YAPE", "PLIN", "TRANSFER"]
          if ms.any (fun m => ¬ valid_methods.contains m.method) then
            .error "Metodo de pago invalido"
          else
            match ms.head? with
            | none => .ok p2
            | some m0 => .ok { p2 with payment_method := m0.method }
      match s3 with
      | .error e => (db, ⟨false, e⟩)
      | .ok p3 =>
        let p4 :=
          match notes with
          | none => p3
          | some s => { p3 with observations := some s }
        (payment_save db p4 today, ⟨true, "Pago actualizado exitosamente"⟩)

/-- Loan.save on an already-persisted row (apps/loans/models.py lines
278-286): recomputes the totals only when total_amount is falsy. -/
def Loan.save_update (l : Loan) : Loan :=
  if l.total_amount = 0 then l.calculate_total_amount else l

/-- The valid periodicity strings (apps/loans/mutations.py line 190). -/
def valid_periodicities : List String :=
  ["DAILY", "WEEKLY", "BIWEEKLY", "MONTHLY", "QUARTERLY", "CUSTOM"]

/-- create_loan (apps/loans/mutations.py lines 117-270).  All
validations precede any write; the loan row is saved and then
generate_installments runs — if it raises (zero installment count) the
exception leaves the atomic block and every write is rolled back. -/
def create_loan (db : DB) (company_id client_id : Nat)
    (initial_amount interest_rate : ℚ) (number_of_installments : Nat)
    (periodicity : String) (start_date end_date : Int)
    (loan_type_id : Option Nat) (penalty_type : Option String)
    (penalty_amount penalty_percentage : Option ℚ)
    (observations : Option String) : DB × CreateLoanResult :=
  if ¬ db.companies.contains company_id then
    (db, ⟨false, "Empresa no encontrada"⟩)
  else if ¬ db.clients.any (fun c => c.id = client_id ∧ c.company_id = company_id) then
    (db, ⟨false, "Cliente no encontrado"⟩)
  else if ¬ (match loan_type_id with
             | none => true
             | some lt => db.loan_types.any (fun x => x.1 = lt ∧ x.2 = company_id) : Bool) then
    (db, ⟨false, "Tipo de prestamo no encontrado"⟩)
  else if ¬ valid_periodicities.contains periodicity then
    (db, ⟨false, "Periodicidad invalida"⟩)
  else if start_date ≥ end_date then
    (db, ⟨false, "La fecha de inicio debe ser anterior a la fecha de vencimiento"⟩)
  else if (match penalty_type with
           | none => false
           | some pt => ¬ (pt = "FIXED" ∨ pt = "PERCENTAGE") : Bool) then
    (db, ⟨false, "Tipo de mora invalido"⟩)
  else if penalty_type = some "FIXED" ∧ penalty_amount.getD 0 = 0 then
    (db, ⟨false, "Debe proporcionar penalty_amount para mora fija"⟩)
  else if penalty_type = some "PERCENTAGE" ∧ penalty_percentage.getD 0 = 0 then
    (db, ⟨false, "Debe proporcionar penalty_percentage para mora porcentual"⟩)
  else
    let loan : Loan :=
      Loan.calculate_total_amount
        { id := next_loan_id db
          company_id := company_id
          client_id := client_id
          initial_amount := initial_amount
          interest_rate := interest_rate
          number_of_installments := number_of_installments
          periodicity := periodicity
          start_date := start_date
          end_date := end_date
          total_amount := 0
          paid_amount := 0
          pending_amount := 0
          penalty_type := penalty_type
          penalty_amount := penalty_amount.getD 0
          penalty_percentage := penalty_percentage.getD 0
          penalty_applied := 0
          status := "ACTIVE"
          original_loan := none
          is_refinanced := false
          observations := observations }
    match generate_installments loan with
    | .error _ => (db, ⟨false, "Error al crear prestamo: division by zero"⟩)
    | .ok insts =>
      let db1 := { db with loans := db.loans ++ [loan] }
      let db2 := db1.insert_installments insts
      let db3 := db2.update_classification client_id
      (db3, ⟨true, "Prestamo creado exitosamente"⟩)

/-- update_loan (apps/loans/mutations.py lines 273-398).  Field edits
are validated one by one; the installment-count edit is rejected once
any amount has been paid, otherwise it deletes the loan's installments
and regenerates them; a raised exception (zero count) rolls everything
back, while a validation failure after the regeneration returns with
the regeneration committed (transaction.atomic only rolls back on
exceptions). -/
def update_loan (db : DB) (loan_id : Nat) (interest_rate : Option ℚ)
    (number_of_installments : Option Nat) (periodicity : Option String)
    (start_date end_date : Option Int) (penalty_type : Option String)
    (penalty_amount penalty_percentage : Option ℚ)
    (observations : Option String) (status : Option String) :
    DB × UpdateLoanResult :=
  match db.find_loan loan_id with
  | none => (db, ⟨false, "Prestamo no encontrado"⟩)
  | some loan0 =>
    let loan1 :=
      match interest_rate with
      | none => loan0
      | some r => Loan.calculate_total_amount { loan0 with interest_rate := r }
    if (match periodicity with
        | none => false
        | some p => ¬ valid_periodicities.contains p : Bool) then
      (db, ⟨false, "Periodicidad invalida"⟩)
    else
    let loan2 :=
      match periodicity with
      | none => loan1
      | some p => { loan1 with periodicity := p }
    let loan3 :=
      match start_date with
      | none => loan2
      | some d => { loan2 with start_date := d }
    if (match end_date with
        | none => false
        | some d => loan3.start_date ≥ d : Bool) then
      (db, ⟨false, "La fecha de inicio debe ser anterior a la fecha de vencimiento"⟩)
    else
    let loan4 :=
      match end_date with
      | none => loan3
      | some d => { loan3 with end_date := d }
    if number_of_installments.isSome ∧ loan4.paid_amount > 0 then
      (db, ⟨false, "No se puede modificar el numero de cuotas si ya hay pagos registrados"⟩)
    else
    let regen : Except String (DB × Loan) :=
      match number_of_installments with
      | none => .ok (db, loan4)
      | some m =>
        let loan5 := { loan4 with number_of_installments := m }
        let dbDel := { db with installments :=
          db.installments.filter (fun i => ¬ i.loan_id = loan_id) }
        match generate_installments loan5 with
        | .error e => .error e
        | .ok insts => .ok (dbDel.insert_installments insts, loan5)
    match regen with
    | .error _ => (db, ⟨false, "Error al actualizar prestamo: division by zero"⟩)
    | .ok (dbA, loanA) =>
      if (match penalty_type with
          | none => false
          | some pt => ¬ (pt = "FIXED" ∨ pt = "PERCENTAGE") : Bool) then
        (dbA, ⟨false, "Tipo de mora invalido"⟩)
      else
      let loanB :=
        match penalty_type with
        | none => loanA
        | some pt => { loanA with penalty_type := some pt }
      let loanC :=
        match penalty_amount with
        | none => loanB
        | some a => { loanB with penalty_amount := a }
      let loanD :=
        match penalty_percentage with
        | none => loanC
        | some a => { loanC with penalty_percentage := a }
      let loanE :=
        match observations with
        | none => loanD
        | some s => { loanD with observations := some s }
      if (match status with
          | none => false
          | some st => ¬ (st = "ACTIVE" ∨ st = "COMPLETED" ∨ st = "DEFAULTING" ∨
                          st = "REFINANCED" ∨ st = "CANCELLED") : Bool) then
        (dbA, ⟨false, "Estado invalido"⟩)
      else
      let loanF :=
        match status with
        | none => loanE
        | some st => { loanE with status := st }
      (dbA.save_loan loanF.save_update, ⟨true, "Prestamo actualizado exitosamente"⟩)

/-- refinance_loan (apps/loans/mutations.py lines 476-586).  The
original loan is looked up scoped by company and client; refinancing is
rejected when nothing is pending or when the refinanced capital exceeds
the pending amount; otherwise a new ACTIVE loan is created with its
schedule, the original is marked REFINANCED and an APPROVED Refinancing
row is recorded. -/
def refinance_loan (db : DB) (original_loan_id company_id client_id : Nat)
    (capital_amount interest_rate : ℚ) (number_of_installments : Nat)
    (periodicity : String) (start_date end_date : Int)
    (observations : Option String) : DB × RefinanceLoanResult :=
  match db.loans.find? (fun l =>
      l.id = original_loan_id ∧ l.company_id = company_id ∧ l.client_id = client_id) with
  | none => (db, ⟨false, "Prestamo original no encontrado"⟩)
  | some original_loan =>
    if original_loan.pending_amount ≤ 0 then
      (db, ⟨false, "El prestamo original ya esta pagado completamente"⟩)
    else if capital_amount > original_loan.pending_amount then
      (db, ⟨false, "El capital refinanciado no puede exceder el saldo pendiente"⟩)
    else
      let new_loan : Loan :=
        Loan.calculate_total_amount
          { id := next_loan_id db
            company_id := company_id
            client_id := client_id
            initial_amount := capital_amount
            interest_rate := interest_rate
            number_of_installments := number_of_installments
            periodicity := periodicity
            start_date := start_date
            end_date := end_date
            total_amount := 0
            paid_amount := 0
            pending_amount := 0
            penalty_type := none
            penalty_amount := 0
            penalty_percentage := 0
            penalty_applied := 0
            status := "ACTIVE"
            original_loan := some original_loan_id
            is_refinanced := true
            observations := observations }
      match generate_installments new_loan with
      | .error _ => (db, ⟨false, "Error al refinanciar prestamo: division by zero"⟩)
      | .ok insts =>
        let db1 := { db with loans := db.loans ++ [new_loan] }
        let db2 := db1.insert_installments insts
        let original2 := Loan.save_update { original_loan with status := "REFINANCED" }
        let db3 := db2.save_loan original2
        let refi : Refinancing :=
          { original_loan_id := original_loan_id
            new_loan_id := new_loan.id
            outstanding_balance := original2.pending_amount
            refinanced_amount := capital_amount
            interest_rate := interest_rate
            new_period_days := end_date - start_date
            status := "APPROVED" }
        let db4 := { db3 with refinancings := db3.refinancings ++ [refi] }
        (db4, ⟨true, "Prestamo refinanciado exitosamente"⟩)

/-- delete_loan (apps/loans/mutations.py lines 589-612): lookup by id
only (no tenant scoping), rejected when any payment references the
loan, otherwise the row and its dependents are cascade-deleted. -/
def delete_loan (db : DB) (loan_id : Nat) : DB × DeleteLoanResult :=
  match db.find_loan loan_id with
  | none => (db, ⟨false, "Prestamo no encontrado"⟩)
  | some _loan =>
    if db.payments.any (fun p => p.loan_id = loan_id) then
      (db, ⟨false, "No se puede eliminar el prestamo porque ya tiene pagos registrados"⟩)
    else
      let gone_installments := (db.installments.filter (fun i => i.loan_id = loan_id)).map Installment.id
      ({ db with
          loans := db.loans.filter (fun l => ¬ l.id = loan_id)
          installments := db.installments.filter (fun i => ¬ i.loan_id = loan_id)
          payments := db.payments.filter (fun p => ¬ p.loan_id = loan_id)
          payment_installments := db.payment_installments.filter
            (fun x => ¬ gone_installments.contains x.installment_id)
          refinancings := db.refinancings.filter
            (fun r => ¬ (r.original_loan_id = loan_id ∨ r.new_loan_id = loan_id)) },
       ⟨true, "Prestamo eliminado correctamente"⟩)

/-- Spec-side variant of delete_loan for comparison with the code: the
spec demands that every loan read or write be scoped to the caller's
company, so the lookup takes the calling tenant's company id and only
matches a loan of that company. -/
def delete_loan_tenant_scoped (db : DB) (caller_company_id loan_id : Nat) :
    DB × DeleteLoanResult :=
  match db.loans.find? (fun l => l.id = loan_id ∧ l.company_id = caller_company_id) with
  | none => (db, ⟨false, "Prestamo no encontrado"⟩)
  | some _loan =>
    if db.payments.any (fun p => p.loan_id = loan_id) then
      (db, ⟨false, "No se puede eliminar el prestamo porque ya tiene pagos registrados"⟩)
    else
      let gone_installments := (db.installments.filter (fun i => i.loan_id = loan_id)).map Installment.id
      ({ db with
          loans := db.loans.filter (fun l => ¬ l.id = loan_id)
          installments := db.installments.filter (fun i => ¬ i.loan_id = loan_id)
          payments := db.payments.filter (fun p => ¬ p.loan_id = loan_id)
          payment_installments := db.payment_installments.filter
            (fun x => ¬ gone_installments.contains x.installment_id)
          refinancings := db.refinancings.filter
            (fun r => ¬ (r.original_loan_id = loan_id ∨ r.new_loan_id = loan_id)) },
       ⟨true, "Prestamo eliminado correctamente"⟩)

/-! ## Reference states used by the witnesses and counterexamples -/

/-- A reference loan: 100 principal at 20 percent in 3 daily
installments. -/
def exampleLoan : Loan :=
  { id := 1, company_id := 1, client_id := 1, initial_amount := 100,
    interest_rate := 20, number_of_installments := 3, periodicity := "DAILY",
    start_date := 0, end_date := 30, total_amount := 120, paid_amount := 0,
    pending_amount := 120, penalty_type := none, penalty_amount := 0,
    penalty_percentage := 0, penalty_applied := 0, status := "ACTIVE",
    original_loan := none, is_refinanced := false, observations := none }

/-- An overdue loan with a fixed daily penalty of 5, eight days past
its end date. -/
def overdueLoan : Loan :=
  { exampleLoan with
    end_date := 2, penalty_type := some "FIXED",
    penalty_amount := 5, pending_amount := 120 }

/-- A 300-sol interest-free loan, fully pending. -/
def fifoLoan : Loan :=
  { exampleLoan with
    initial_amount := 300, interest_rate := 0, total_amount := 300,
    pending_amount := 300 }

/-- One pending 100-sol installment of fifoLoan. -/
def fifoInstallment (k : Nat) : Installment :=
  { id := k, loan_id := 1, installment_number := k, due_date := 10 * k,
    capital_amount := 100, interest_amount := 0, total_amount := 100,
    paid_amount := 0, status := "PENDING" }

/-- The one-tenant reference database: one company, one client, one
collector, fifoLoan with three pending 100-sol installments. -/
def fifoDB : DB :=
  { companies := [1], loan_types := [], users := [⟨7, 1⟩],
    clients := [⟨1, 1, "REGULAR"⟩], loans := [fifoLoan],
    installments := [fifoInstallment 1, fifoInstallment 2, fifoInstallment 3],
    payments := [], payment_installments := [], refinancings := [] }

/-- A completed 150-sol payment against fifoLoan. -/
def fifoPayment : Payment :=
  { id := 1, company_id := 1, loan_id := 1, client_id := 1, amount := 150,
    payment_date := 5, payment_method := "CASH", collector_id := some 7,
    status := "COMPLETED", observations := none }

/-- A database whose loan already has one PAID and one CANCELLED
installment besides a pending one. -/
def frameDB : DB :=
  { fifoDB with
    installments :=
      [{ fifoInstallment 1 with paid_amount := 100, status := "PAID" },
       { fifoInstallment 2 with status := "CANCELLED" },
       fifoInstallment 3] }

/-- A completed 50-sol payment against the frameDB loan. -/
def framePayment : Payment :=
  { fifoPayment with amount := 50 }

/-- Two tenants: company 1 owns loan 1 (client 1, collector 7);
company 2 has client 2 and collector 99 and no loans. -/
def twoTenantDB : DB :=
  { companies := [1, 2], loan_types := [],
    users := [⟨7, 1⟩, ⟨99, 2⟩],
    clients := [⟨1, 1, "REGULAR"⟩, ⟨2, 2, "REGULAR"⟩],
    loans := [fifoLoan],
    installments := [fifoInstallment 1, fifoInstallment 2, fifoInstallment 3],
    payments := [], payment_installments := [], refinancings := [] }

/-! ## Theorems -/

/-- The payment-row write never touches the installment table. -/
@[simp] theorem save_payment_row_installments (db : DB) (p : Payment) :
    (db.save_payment_row p).installments = db.installments := by
  unfold DB.save_payment_row
  split <;> rfl

/-- The payment-row write never touches the loan table. -/
@[simp] theorem save_payment_row_loans (db : DB) (p : Payment) :
    (db.save_payment_row p).loans = db.loans := by
  unfold DB.save_payment_row
  split <;> rfl

/-- The payment-row write never touches the PaymentInstallment table. -/
@[simp] theorem save_payment_row_payment_installments (db : DB) (p : Payment) :
    (db.save_payment_row p).payment_installments = db.payment_installments := by
  unfold DB.save_payment_row
  split <;> rfl

/-- The loan-row write never touches the installment table. -/
@[simp] theorem save_loan_installments (db : DB) (l : Loan) :
    (db.save_loan l).installments = db.installments := rfl

/-- The loan-row write never touches the PaymentInstallment table. -/
@[simp] theorem save_loan_payment_installments (db : DB) (l : Loan) :
    (db.save_loan l).payment_installments = db.payment_installments := rfl

/-- The classification write never touches the installment table. -/
@[simp] theorem update_classification_installments (db : DB) (cid : Nat) :
    (db.update_classification cid).installments = db.installments := rfl

/-- The classification write never touches the loan table. -/
@[simp] theorem update_classification_loans (db : DB) (cid : Nat) :
    (db.update_classification cid).loans = db.loans := rfl

/-- The classification write never touches the PaymentInstallment
table. -/
@[simp] theorem update_classification_payment_installments (db : DB) (cid : Nat) :
    (db.update_classification cid).payment_installments = db.payment_installments := rfl

/-- Sum of the images of 0..m-1 under a function constant on that range. -/
theorem sum_map_const_range (m : Nat) (f : Nat → ℚ) (c : ℚ)
    (h : ∀ k < m, f k = c) : ((List.range m).map f).sum = m * c := by
  induction m with
  | zero => simp
  | succ m ih =>
    rw [List.range_succ, List.map_append, List.sum_append,
        ih (fun k hk => h k (by omega)), List.map_singleton, List.sum_singleton,
        h m (by omega)]
    push_cast
    ring

/-- C1: for every valid loan creation input (installment count at least
1, start before end), generate_installments succeeds, produces exactly
number_of_installments rows, the total amounts of the rows sum exactly
to the loan total initial + initial*rate/100, and the last row (the one
numbered N) carries capital = principal - capital_per_installment*(N-1)
and interest = total_interest - interest_per_installment*(N-1). -/
theorem C1_schedule_sum_invariant (loan : Loan)
    (h1 : 1 ≤ loan.number_of_installments)
    (h2 : loan.start_date < loan.end_date) :
    ∃ insts : List Installment,
      generate_installments loan = Except.ok insts ∧
      insts.length = loan.number_of_installments ∧
      (insts.map Installment.total_amount).sum
        = loan.calculate_total_amount.total_amount ∧
      loan.calculate_total_amount.total_amount
        = loan.initial_amount + loan.initial_amount * loan.interest_rate / 100 ∧
      ∀ inst ∈ insts, inst.installment_number = loan.number_of_installments →
        inst.capital_amount
          = loan.initial_amount
            - capital_per_installment loan * ((loan.number_of_installments : ℚ) - 1) ∧
        inst.interest_amount
          = total_interest loan
            - interest_per_installment loan * ((loan.number_of_installments : ℚ) - 1) := by
  have h0 : loan.number_of_installments ≠ 0 := by omega
  obtain ⟨m, hm⟩ : ∃ m, loan.number_of_installments = m + 1 :=
    ⟨loan.number_of_installments - 1, by omega⟩
  refine ⟨(List.range loan.number_of_installments).map (installment_payload loan),
    by simp [generate_installments, h0], by simp, ?_, ?_, ?_⟩
  · rw [List.map_map]
    have hconst : ∀ k < m,
        (Installment.total_amount ∘ installment_payload loan) k
          = capital_per_installment loan + interest_per_installment loan := by
      intro k hk
      have hne : ¬ (k + 1 = loan.number_of_installments) := by omega
      simp [installment_payload, hne]
    have hlast : (Installment.total_amount ∘ installment_payload loan) m
        = (loan.initial_amount
            - capital_per_installment loan * ((loan.number_of_installments : ℚ) - 1))
          + (total_interest loan
            - interest_per_installment loan * ((loan.number_of_installments : ℚ) - 1)) := by
      have hyes : m + 1 = loan.number_of_installments := hm.symm
      simp [installment_payload, hyes]
    rw [hm, List.range_succ, List.map_append, List.sum_append,
        sum_map_const_range m _ _ hconst, List.map_singleton, List.sum_singleton,
        hlast]
    have hn : ((loan.number_of_installments : ℚ)) = (m : ℚ) + 1 := by
      rw [hm]; push_cast; ring
    rw [hn]
    simp only [Loan.calculate_total_amount, total_interest]
    ring
  · simp [Loan.calculate_total_amount]
  · intro inst hmem hnum
    simp only [List.mem_map, List.mem_range] at hmem
    obtain ⟨k, hk, rfl⟩ := hmem
    have hknum : k + 1 = loan.number_of_installments := by
      simpa [installment_payload] using hnum
    constructor
    · simp [installment_payload, hknum]
    · simp [installment_payload, hknum]

/-- Witness for C1 at the reference loan. -/
theorem C1_schedule_sum_invariant_witness :
    (1 ≤ exampleLoan.number_of_installments ∧
      exampleLoan.start_date < exampleLoan.end_date) ∧
    ∃ insts : List Installment,
      generate_installments exampleLoan = Except.ok insts ∧
      insts.length = exampleLoan.number_of_installments ∧
      (insts.map Installment.total_amount).sum
        = exampleLoan.calculate_total_amount.total_amount ∧
      exampleLoan.calculate_total_amount.total_amount
        = exampleLoan.initial_amount
          + exampleLoan.initial_amount * exampleLoan.interest_rate / 100 ∧
      ∀ inst ∈ insts, inst.installment_number = exampleLoan.number_of_installments →
        inst.capital_amount
          = exampleLoan.initial_amount
            - capital_per_installment exampleLoan
              * ((exampleLoan.number_of_installments : ℚ) - 1) ∧
        inst.interest_amount
          = total_interest exampleLoan
            - interest_per_installment exampleLoan
              * ((exampleLoan.number_of_installments : ℚ) - 1) :=
  ⟨⟨by decide, by decide⟩,
    C1_schedule_sum_invariant exampleLoan (by decide) (by decide)⟩

/-- C5: calculate_penalty called twice on the same day with no payment
in between returns the same value and leaves the same penalty_applied
(it overwrites, never accumulates: the result is independent of the
previously stored penalty_applied); while the loan is COMPLETED or
CANCELLED or not yet past end_date it yields zero; once overdue it
computes the FIXED penalty as penalty_amount * days_overdue and the
PERCENTAGE penalty as pending_amount * penalty_percentage / 100 *
days_overdue, fresh each call. -/
theorem C5_penalty_recompute_idempotent (loan : Loan) (today : Int) :
    ((loan.calculate_penalty today).2.calculate_penalty today).1
      = (loan.calculate_penalty today).1 ∧
    ((loan.calculate_penalty today).2.calculate_penalty today).2.penalty_applied
      = (loan.calculate_penalty today).2.penalty_applied ∧
    (∀ q : ℚ, (Loan.calculate_penalty { loan with penalty_applied := q } today).1
      = (loan.calculate_penalty today).1) ∧
    (loan.status = "COMPLETED" ∨ loan.status = "CANCELLED" ∨ today ≤ loan.end_date →
      (loan.calculate_penalty today).1 = 0) ∧
    (¬ (loan.status = "COMPLETED" ∨ loan.status = "CANCELLED") →
      loan.end_date < today → loan.penalty_type = some "FIXED" →
      (loan.calculate_penalty today).1
        = loan.penalty_amount * ((today - loan.end_date : ℤ) : ℚ)) ∧
    (¬ (loan.status = "COMPLETED" ∨ loan.status = "CANCELLED") →
      loan.end_date < today → loan.penalty_type = some "PERCENTAGE" →
      (loan.calculate_penalty today).1
        = loan.pending_amount * loan.penalty_percentage / 100
          * ((today - loan.end_date : ℤ) : ℚ)) := by
  unfold Loan.calculate_penalty
  by_cases hs : loan.status = "COMPLETED" ∨ loan.status = "CANCELLED"
  · simp [hs]
  · by_cases hd : today ≤ loan.end_date
    · simp [hs, hd]
    · have hd2 : loan.end_date < today := by omega
      by_cases hf : loan.penalty_type = some "FIXED" ∧ loan.penalty_amount ≠ 0
      · simp [hs, hd, hf]
      · by_cases hp : loan.penalty_type = some "PERCENTAGE" ∧ loan.penalty_percentage ≠ 0
        · have hnotf : ¬ loan.penalty_type = some "FIXED" := by
            intro h
            rw [h] at hp
            simp at hp
          simp [hs, hd, hf, hp, hnotf]
        · constructor
          · simp [hs, hd, hf, hp]
          constructor
          · simp [hs, hd, hf, hp]
          constructor
          · intro q; simp [hs, hd, hf, hp]
          constructor
          · intro h
            rcases h with h | h | h
            · exact absurd (Or.inl h) hs
            · exact absurd (Or.inr h) hs
            · omega
          constructor
          · intro _ _ ht
            have hz : loan.penalty_amount = 0 := by
              by_contra hnz
              exact hf ⟨ht, hnz⟩
            simp [hs, hd, hf, hp, hz]
          · intro _ _ ht
            have hz : loan.penalty_percentage = 0 := by
              by_contra hnz
              exact hp ⟨ht, hnz⟩
            simp [hs, hd, hf, hp, hz]

/-- Witness for C5: the overdue fixed-penalty loan at day 10. -/
theorem C5_penalty_recompute_idempotent_witness :
    ((overdueLoan.calculate_penalty 10).2.calculate_penalty 10).1
      = (overdueLoan.calculate_penalty 10).1 ∧
    (¬ (overdueLoan.status = "COMPLETED" ∨ overdueLoan.status = "CANCELLED") ∧
      overdueLoan.end_date < 10 ∧ overdueLoan.penalty_type = some "FIXED") ∧
    (overdueLoan.calculate_penalty 10).1
      = overdueLoan.penalty_amount * ((10 - overdueLoan.end_date : ℤ) : ℚ) :=
  ⟨(C5_penalty_recompute_idempotent overdueLoan 10).1,
   ⟨by decide, by decide, by decide⟩,
   (C5_penalty_recompute_idempotent overdueLoan 10).2.2.2.2.1
     (by decide) (by decide) (by decide)⟩

/-- The float comparison defaulting_count >= total_count * 0.5 over ℚ
is the integer comparison total <= 2 * defaulting. -/
theorem half_threshold_iff (d t : Nat) :
    (t : ℚ) * (1 / 2) ≤ (d : ℚ) ↔ t ≤ 2 * d := by
  constructor
  · intro h
    have h2 : (t : ℚ) ≤ 2 * (d : ℚ) := by nlinarith
    exact_mod_cast h2
  · intro h
    have h2 : (t : ℚ) ≤ 2 * (d : ℚ) := by exact_mod_cast h
    nlinarith

/-- C6: the classification engine is a total function of the client's
loan statuses, evaluated in exact precedence: no loans gives REGULAR;
zero DEFAULTING/REFINANCED loans together with at least one COMPLETED
loan gives PUNCTUAL; a DEFAULTING/REFINANCED count at or above 50
percent of the total count (inclusive: 1 of 2 qualifies) gives
SEVERELY_DEFAULTING; any such loan below the threshold gives
DEFAULTING; otherwise REGULAR. -/
theorem C6_classification_engine :
    classify [] = "REGULAR" ∧
    (∀ sts : List String, sts ≠ [] →
      (sts.filter (fun s => s = "DEFAULTING" ∨ s = "REFINANCED")).length = 0 →
      0 < (sts.filter (fun s => s = "COMPLETED")).length →
      classify sts = "PUNCTUAL") ∧
    (∀ sts : List String, sts ≠ [] →
      sts.length ≤ 2 * (sts.filter (fun s => s = "DEFAULTING" ∨ s = "REFINANCED")).length →
      classify sts = "SEVERELY_DEFAULTING") ∧
    (∀ sts : List String, sts ≠ [] →
      0 < (sts.filter (fun s => s = "DEFAULTING" ∨ s = "REFINANCED")).length →
      2 * (sts.filter (fun s => s = "DEFAULTING" ∨ s = "REFINANCED")).length < sts.length →
      classify sts = "DEFAULTING") ∧
    (∀ sts : List String, sts ≠ [] →
      (sts.filter (fun s => s = "DEFAULTING" ∨ s = "REFINANCED")).length = 0 →
      (sts.filter (fun s => s = "COMPLETED")).length = 0 →
      classify sts = "REGULAR") ∧
    classify ["ACTIVE", "DEFAULTING"] = "SEVERELY_DEFAULTING" := by
  have hlen : ∀ sts : List String, sts ≠ [] → 0 < sts.length := by
    intro sts h
    cases sts with
    | nil => exact absurd rfl h
    | cons a l => simp
  have hflen : ∀ sts : List String,
      (sts.filter (fun s => s = "DEFAULTING" ∨ s = "REFINANCED")).length ≤ sts.length :=
    fun sts => List.length_filter_le _ sts
  refine ⟨rfl, ?_, ?_, ?_, ?_, by norm_num [classify]⟩
  · intro sts hne hd hc
    have hem : sts.isEmpty = false := by
      cases sts with
      | nil => exact absurd rfl hne
      | cons a l => rfl
    simp only [classify, hem]
    rw [if_neg (by simp), if_pos ⟨hd, hc⟩]
  · intro sts hne hhalf
    have hem : sts.isEmpty = false := by
      cases sts with
      | nil => exact absurd rfl hne
      | cons a l => rfl
    have hd : 0 < (sts.filter (fun s => s = "DEFAULTING" ∨ s = "REFINANCED")).length := by
      have := hlen sts hne
      omega
    simp only [classify, hem]
    rw [if_neg (by simp), if_neg (by omega), if_pos ((half_threshold_iff _ _).mpr hhalf)]
  · intro sts hne hd hhalf
    have hem : sts.isEmpty = false := by
      cases sts with
      | nil => exact absurd rfl hne
      | cons a l => rfl
    simp only [classify, hem]
    rw [if_neg (by simp), if_neg (by omega),
        if_neg (fun h => by
          have := (half_threshold_iff _ _).mp h
          omega),
        if_pos hd]
  · intro sts hne hd hc
    have hem : sts.isEmpty = false := by
      cases sts with
      | nil => exact absurd rfl hne
      | cons a l => rfl
    have ht := hlen sts hne
    simp only [classify, hem]
    rw [if_neg (by simp), if_neg (by omega),
        if_neg (fun h => by
          have := (half_threshold_iff _ _).mp h
          omega),
        if_neg (by omega)]

/-- Witness for C6: the inclusive-threshold example and the punctual
example evaluated through the theorem. -/
theorem C6_classification_engine_witness :
    classify ["ACTIVE", "DEFAULTING"] = "SEVERELY_DEFAULTING" ∧
    classify ["COMPLETED", "COMPLETED"] = "PUNCTUAL" ∧
    classify ["ACTIVE", "ACTIVE", "DEFAULTING"] = "DEFAULTING" :=
  ⟨C6_classification_engine.2.2.1 ["ACTIVE", "DEFAULTING"] (by decide) (by decide),
   C6_classification_engine.2.1 ["COMPLETED", "COMPLETED"] (by decide) (by decide) (by decide),
   C6_classification_engine.2.2.2.1 ["ACTIVE", "ACTIVE", "DEFAULTING"]
     (by decide) (by decide) (by decide)⟩

/-- C7: a refinance request whose capital exceeds the original loan's
pending amount, or whose original loan has nothing pending, fails with
a validation message and leaves the database — both loans, the
installment table, and the refinancing audit table — exactly as it
was. -/
theorem C7_refinance_ceiling_rejected (db : DB)
    (original_loan_id company_id client_id : Nat)
    (capital_amount interest_rate : ℚ) (n : Nat) (periodicity : String)
    (start_date end_date : Int) (obs : Option String) (l : Loan)
    (hfind : db.loans.find? (fun l2 => l2.id = original_loan_id ∧
      l2.company_id = company_id ∧ l2.client_id = client_id) = some l)
    (hbad : l.pending_amount ≤ 0 ∨ capital_amount > l.pending_amount) :
    (refinance_loan db original_loan_id company_id client_id capital_amount
        interest_rate n periodicity start_date end_date obs).2.success = false ∧
    (refinance_loan db original_loan_id company_id client_id capital_amount
        interest_rate n periodicity start_date end_date obs).1 = db := by
  unfold refinance_loan
  rw [hfind]
  by_cases h1 : l.pending_amount ≤ 0
  · simp [h1]
  · have h2 : capital_amount > l.pending_amount := by
      rcases hbad with h | h
      · exact absurd h h1
      · exact h
    simp [h1, h2]

/-- Witness for C7: refinancing 400 against a 300-sol pending loan is
rejected and the database is untouched. -/
theorem C7_refinance_ceiling_rejected_witness :
    (fifoDB.loans.find? (fun l2 => l2.id = 1 ∧
        l2.company_id = 1 ∧ l2.client_id = 1) = some fifoLoan ∧
      ((400 : ℚ) > fifoLoan.pending_amount)) ∧
    (refinance_loan fifoDB 1 1 1 400 10 2 "DAILY" 0 30 none).2.success = false ∧
    (refinance_loan fifoDB 1 1 1 400 10 2 "DAILY" 0 30 none).1 = fifoDB :=
  ⟨⟨by norm_num [fifoDB, fifoLoan, exampleLoan],
    by norm_num [fifoLoan, exampleLoan]⟩,
   C7_refinance_ceiling_rejected fifoDB 1 1 1 400 10 2 "DAILY" 0 30 none fifoLoan
     (by norm_num [fifoDB, fifoLoan, exampleLoan])
     (Or.inr (by norm_num [fifoLoan, exampleLoan]))⟩

/-- C9: create_loan invoked with number_of_installments = 0 never
persists partial state: whatever else the arguments are, it returns a
failure result and the database is exactly unchanged, because the
zero-divisor error raised inside the atomic block rolls back the
already-saved loan row. -/
theorem C9_create_loan_zero_installments_rolls_back (db : DB)
    (company_id client_id : Nat) (initial_amount interest_rate : ℚ)
    (periodicity : String) (start_date end_date : Int)
    (loan_type_id : Option Nat) (penalty_type : Option String)
    (penalty_amount penalty_percentage : Option ℚ) (obs : Option String) :
    (create_loan db company_id client_id initial_amount interest_rate 0
        periodicity start_date end_date loan_type_id penalty_type
        penalty_amount penalty_percentage obs).2.success = false ∧
    (create_loan db company_id client_id initial_amount interest_rate 0
        periodicity start_date end_date loan_type_id penalty_type
        penalty_amount penalty_percentage obs).1 = db := by
  unfold create_loan
  split_ifs <;>
    simp [generate_installments, Loan.calculate_total_amount]

/-- Witness for C9: the reference database with a zero installment
count. -/
theorem C9_create_loan_zero_installments_rolls_back_witness :
    (create_loan fifoDB 1 1 100 10 0 "DAILY" 0 30 none none none none
        none).2.success = false ∧
    (create_loan fifoDB 1 1 100 10 0 "DAILY" 0 30 none none none none
        none).1 = fifoDB :=
  C9_create_loan_zero_installments_rolls_back fifoDB 1 1 100 10 "DAILY" 0 30
    none none none none none

/-- Every pair of a list zipped with itself is reflexive. -/
theorem zip_self_eq {α : Type} : ∀ (l : List α), ∀ pr ∈ l.zip l, pr.2 = pr.1 := by
  intro l
  induction l with
  | nil => intro pr h; simp at h
  | cons a rest ih =>
    intro pr h
    rw [List.zip_cons_cons, List.mem_cons] at h
    rcases h with h | h
    · rw [h]
    · exact ih pr h

/-- The distribution loop keeps the table length and leaves every row
that the status filter drops untouched (positionally). -/
theorem distribute_frame (today : Int) (pid lid : Nat) :
    ∀ (insts : List Installment) (r : ℚ) (pis : List PaymentInstallment),
      (distribute today pid lid r insts pis).2.1.length = insts.length ∧
      ∀ pr ∈ insts.zip (distribute today pid lid r insts pis).2.1,
        ¬ (pr.1.loan_id = lid ∧ eligible pr.1 = true) → pr.2 = pr.1 := by
  intro insts
  induction insts with
  | nil => intro r pis; simp [distribute]
  | cons a rest ih =>
    intro r pis
    by_cases hm : a.loan_id = lid ∧ eligible a
    · by_cases hr : r ≤ 0
      · simp only [distribute, if_pos hm, if_pos hr]
        exact ⟨by simp, fun pr h _ => zip_self_eq (a :: rest) pr h⟩
      · by_cases happ : min r (a.total_amount - a.paid_amount) ≤ 0
        · simp only [distribute, if_pos hm, if_neg hr, if_pos happ]
          refine ⟨by simpa using (ih r pis).1, ?_⟩
          intro pr h hne
          rw [List.zip_cons_cons, List.mem_cons] at h
          rcases h with h | h
          · rw [h]
          · exact (ih r pis).2 pr h hne
        · simp only [distribute, if_pos hm, if_neg hr, if_neg happ]
          refine ⟨by simpa using (ih _ _).1, ?_⟩
          intro pr h hne
          rw [List.zip_cons_cons, List.mem_cons] at h
          rcases h with h | h
          · exact absurd (by rw [h]; exact ⟨hm.1, by simpa using hm.2⟩) hne
          · exact (ih _ _).2 pr h hne
    · simp only [distribute, if_neg hm]
      refine ⟨by simpa using (ih r pis).1, ?_⟩
      intro pr h hne
      rw [List.zip_cons_cons, List.mem_cons] at h
      rcases h with h | h
      · rw [h]
      · exact (ih r pis).2 pr h hne

/-- After Payment.save the installment table is either untouched or the
output of the distribution loop run on the untouched table. -/
theorem payment_save_installments_cases (db : DB) (p : Payment) (today : Int) :
    (payment_save db p today).installments = db.installments ∨
    ∃ r pis, (payment_save db p today).installments
      = (distribute today p.id p.loan_id r db.installments pis).2.1 := by
  unfold payment_save
  by_cases hst : p.status = "COMPLETED"
  · rw [if_pos hst]
    cases hfind : (db.save_payment_row p).find_loan p.loan_id with
    | none => left; simp
    | some loan =>
      simp only
      split
      · right
        exact ⟨(allocate_to_penalty loan p.amount).2, db.payment_installments, by simp⟩
      · left
        simp
  · rw [if_neg hst]
    left
    simp

/-- A PAID or CANCELLED installment is not selected by the allocation
filter. -/
theorem eligible_false_of_paid_or_cancelled (inst : Installment)
    (h : inst.status = "PAID" ∨ inst.status = "CANCELLED") :
    eligible inst = false := by
  rcases h with h | h <;> simp [eligible, h]

/-- C10: payment allocation never modifies a PAID or CANCELLED
installment: for every completed payment, the installment table keeps
its length and every row that was PAID or CANCELLED before the payment
is unchanged afterwards (same paid_amount, same status, all fields). -/
theorem C10_allocation_preserves_paid_cancelled (db : DB) (p : Payment)
    (today : Int) (hst : p.status = "COMPLETED") :
    (payment_save db p today).installments.length = db.installments.length ∧
    ∀ pr ∈ db.installments.zip (payment_save db p today).installments,
      pr.1.status = "PAID" ∨ pr.1.status = "CANCELLED" → pr.2 = pr.1 := by
  rcases payment_save_installments_cases db p today with hcase | ⟨r, pis, hcase⟩
  · rw [hcase]
    exact ⟨rfl, fun pr h _ => zip_self_eq _ pr h⟩
  · rw [hcase]
    refine ⟨(distribute_frame today p.id p.loan_id _ _ _).1, ?_⟩
    intro pr hmem hpc
    refine (distribute_frame today p.id p.loan_id _ _ _).2 pr hmem ?_
    intro hcontra
    rw [eligible_false_of_paid_or_cancelled pr.1 hpc] at hcontra
    exact Bool.false_ne_true hcontra.2

/-- Witness for C10: a completed 50-sol payment against a loan whose
first installment is PAID and second is CANCELLED leaves those two rows
unchanged. -/
theorem C10_allocation_preserves_paid_cancelled_witness :
    framePayment.status = "COMPLETED" ∧
    ((payment_save frameDB framePayment 5).installments.length
        = frameDB.installments.length ∧
      ∀ pr ∈ frameDB.installments.zip
          (payment_save frameDB framePayment 5).installments,
        pr.1.status = "PAID" ∨ pr.1.status = "CANCELLED" → pr.2 = pr.1) :=
  ⟨rfl, C10_allocation_preserves_paid_cancelled frameDB framePayment 5 rfl⟩

/-- Recomputing an installment's status never changes its
paid_amount. -/
@[simp] theorem update_status_paid_amount (inst : Installment) (today : Int) :
    (inst.update_status today).paid_amount = inst.paid_amount := by
  unfold Installment.update_status
  split_ifs <;> rfl

/-- Recomputing an installment's status never changes its
total_amount. -/
@[simp] theorem update_status_total_amount (inst : Installment) (today : Int) :
    (inst.update_status today).total_amount = inst.total_amount := by
  unfold Installment.update_status
  split_ifs <;> rfl

/-- The penalty step keeps the loan's primary key. -/
@[simp] theorem allocate_to_penalty_id (loan : Loan) (a : ℚ) :
    (allocate_to_penalty loan a).1.id = loan.id := by
  unfold allocate_to_penalty
  split <;> rfl

/-- The penalty step reduces penalty_applied by exactly
min(amount, penalty_applied) whenever both are nonnegative. -/
theorem allocate_to_penalty_spec (loan : Loan) (a : ℚ)
    (hpen : 0 ≤ loan.penalty_applied) (hamt : 0 ≤ a) :
    (allocate_to_penalty loan a).1.penalty_applied
      = loan.penalty_applied - min a loan.penalty_applied := by
  unfold allocate_to_penalty
  split
  · rfl
  · rename_i h
    have hmin : min a loan.penalty_applied = 0 := by
      rcases not_and_or.mp h with h1 | h1
      · have : loan.penalty_applied = 0 := le_antisymm (not_lt.mp h1) hpen
        rw [this]
        exact min_eq_right hamt
      · have : a = 0 := le_antisymm (not_lt.mp h1) hamt
        rw [this]
        exact min_eq_left hpen
    rw [hmin, sub_zero]

/-- The penalty step leaves a nonnegative remainder for a nonnegative
amount. -/
theorem allocate_to_penalty_remaining_nonneg (loan : Loan) (a : ℚ)
    (hamt : 0 ≤ a) : 0 ≤ (allocate_to_penalty loan a).2 := by
  unfold allocate_to_penalty
  split
  · simp [min_le_left]
  · exact hamt

/-- The aggregate refresh keeps the loan's primary key. -/
@[simp] theorem refresh_loan_aggregates_id (loan : Loan) (a : ℚ) (today : Int) :
    (refresh_loan_aggregates loan a today).id = loan.id := rfl

/-- The aggregate refresh keeps penalty_applied. -/
@[simp] theorem refresh_loan_aggregates_penalty (loan : Loan) (a : ℚ) (today : Int) :
    (refresh_loan_aggregates loan a today).penalty_applied = loan.penalty_applied := rfl

/-- Saving a payment row does not change which loan a lookup finds. -/
@[simp] theorem find_loan_save_payment_row (db : DB) (p : Payment) (lid : Nat) :
    (db.save_payment_row p).find_loan lid = db.find_loan lid := by
  unfold DB.find_loan
  rw [save_payment_row_loans]

/-- With nothing left to distribute, the distribution loop is the
identity. -/
theorem distribute_nonpos (today : Int) (pid lid : Nat) :
    ∀ (insts : List Installment) (r : ℚ) (pis : List PaymentInstallment),
      r ≤ 0 → distribute today pid lid r insts pis = (r, insts, pis) := by
  intro insts
  induction insts with
  | nil => intro r pis hr; simp [distribute]
  | cons hd tl ih =>
    intro r pis hr
    by_cases hm : hd.loan_id = lid ∧ eligible hd
    · simp [distribute, hm, hr]
    · simp [distribute, hm, ih r pis hr]

/-- FIFO no-skip property of the distribution loop: starting from a
nonnegative remainder, whenever some row strictly gained paid_amount,
every earlier row of the same loan that was eligible ends the loop
fully paid — an older unpaid installment is never skipped in favor of
a newer one. -/
theorem distribute_no_skip (today : Int) (pid lid : Nat) :
    ∀ (insts : List Installment) (r : ℚ) (pis : List PaymentInstallment),
      0 ≤ r →
      ∀ (i j : Nat) (a b a2 b2 : Installment), i < j →
        insts[i]? = some a → insts[j]? = some b →
        (distribute today pid lid r insts pis).2.1[i]? = some a2 →
        (distribute today pid lid r insts pis).2.1[j]? = some b2 →
        a.loan_id = lid → eligible a = true →
        b.paid_amount < b2.paid_amount →
        a.total_amount ≤ a2.paid_amount := by
  intro insts
  induction insts with
  | nil =>
    intro r pis hr i j a b a2 b2 hij ha hb ha2 hb2 hlid helig hpaid
    simp at ha
  | cons hd tl ih =>
    intro r pis hr i j a b a2 b2 hij ha hb ha2 hb2 hlid helig hpaid
    obtain ⟨j', rfl⟩ : ∃ j', j = j' + 1 := ⟨j - 1, by omega⟩
    by_cases hm : hd.loan_id = lid ∧ eligible hd
    · by_cases hrle : r ≤ 0
      · rw [distribute_nonpos today pid lid (hd :: tl) r pis hrle] at ha2 hb2
        simp only at ha2 hb2
        rw [hb] at hb2
        have : b2 = b := by injection hb2 |>.symm
        rw [this] at hpaid
        exact absurd hpaid (lt_irrefl _)
      · by_cases happ : min r (hd.total_amount - hd.paid_amount) ≤ 0
        · simp only [distribute, if_pos hm, if_neg hrle, if_pos happ] at ha2 hb2
          cases i with
          | zero =>
            have ha' : a = hd := by
              rw [List.getElem?_cons_zero] at ha
              injection ha |>.symm
            have ha2' : a2 = hd := by
              rw [List.getElem?_cons_zero] at ha2
              injection ha2 |>.symm
            have hneed : hd.total_amount - hd.paid_amount ≤ 0 := by
              by_contra hcon
              push_neg at hcon
              have := lt_min (not_le.mp hrle) hcon
              linarith
            rw [ha', ha2']
            linarith
          | succ i' =>
            rw [List.getElem?_cons_succ] at ha ha2
            rw [List.getElem?_cons_succ] at hb hb2
            exact ih r pis hr i' j' a b a2 b2 (by omega) ha hb ha2 hb2 hlid helig hpaid
        · simp only [distribute, if_pos hm, if_neg hrle, if_neg happ] at ha2 hb2
          cases i with
          | zero =>
            have ha' : a = hd := by
              rw [List.getElem?_cons_zero] at ha
              injection ha |>.symm
            have ha2eq : a2 = Installment.update_status
                { hd with paid_amount :=
                    hd.paid_amount + min r (hd.total_amount - hd.paid_amount) } today := by
              rw [List.getElem?_cons_zero] at ha2
              injection ha2 |>.symm
            rcases le_total (hd.total_amount - hd.paid_amount) r with hler | hler
            · have hmin : min r (hd.total_amount - hd.paid_amount)
                  = hd.total_amount - hd.paid_amount := min_eq_right hler
              rw [ha', ha2eq, update_status_paid_amount]
              simp only [hmin]
              linarith
            · have hmin : min r (hd.total_amount - hd.paid_amount) = r :=
                min_eq_left hler
              rw [List.getElem?_cons_succ] at hb hb2
              rw [distribute_nonpos today pid lid tl
                  (r - min r (hd.total_amount - hd.paid_amount)) _
                  (by rw [hmin]; linarith)] at hb2
              simp only at hb2
              rw [hb] at hb2
              have : b2 = b := by injection hb2 |>.symm
              rw [this] at hpaid
              exact absurd hpaid (lt_irrefl _)
          | succ i' =>
            rw [List.getElem?_cons_succ] at ha ha2
            rw [List.getElem?_cons_succ] at hb hb2
            have hr2 : 0 ≤ r - min r (hd.total_amount - hd.paid_amount) := by
              have := min_le_left r (hd.total_amount - hd.paid_amount)
              linarith
            exact ih (r - min r (hd.total_amount - hd.paid_amount)) _ hr2 i' j'
              a b a2 b2 (by omega) ha hb ha2 hb2 hlid helig hpaid
    · simp only [distribute, if_neg hm] at ha2 hb2
      cases i with
      | zero =>
        have ha' : a = hd := by
          rw [List.getElem?_cons_zero] at ha
          injection ha |>.symm
        rw [ha'] at hlid helig
        exact absurd ⟨hlid, helig⟩ hm
      | succ i' =>
        rw [List.getElem?_cons_succ] at ha ha2
        rw [List.getElem?_cons_succ] at hb hb2
        exact ih r pis hr i' j' a b a2 b2 (by omega) ha hb ha2 hb2 hlid helig hpaid

/-- Saving a loan row rewrites exactly the rows with its primary
key. -/
theorem save_loan_loans (db : DB) (l : Loan) :
    (db.save_loan l).loans
      = db.loans.map (fun x => if x.id = l.id then l else x) := rfl

/-- Under a completed payment whose loan is found, the installment
table after Payment.save is the untouched table or the distribution
output for the after-penalty remainder. -/
theorem payment_save_installments_spec (db : DB) (p : Payment) (today : Int)
    (loan : Loan) (hst : p.status = "COMPLETED")
    (hfind : db.find_loan p.loan_id = some loan) :
    (payment_save db p today).installments = db.installments ∨
    (payment_save db p today).installments
      = (distribute today p.id p.loan_id (allocate_to_penalty loan p.amount).2
          db.installments db.payment_installments).2.1 := by
  unfold payment_save
  rw [if_pos hst]
  have hfind0 : (db.save_payment_row p).find_loan p.loan_id = some loan := by
    rw [find_loan_save_payment_row]
    exact hfind
  rw [hfind0]
  simp only
  split
  · right; simp
  · left; simp

/-- Under a completed payment whose loan is found with nonnegative
penalty and amount, every loan row carrying the payment's loan id ends
with penalty_applied reduced by exactly min(amount, penalty). -/
theorem payment_save_loans_spec (db : DB) (p : Payment) (today : Int)
    (loan : Loan) (hst : p.status = "COMPLETED")
    (hfind : db.find_loan p.loan_id = some loan)
    (hpen : 0 ≤ loan.penalty_applied) (hamt : 0 ≤ p.amount) :
    ∀ l2 ∈ (payment_save db p today).loans, l2.id = p.loan_id →
      l2.penalty_applied
        = loan.penalty_applied - min p.amount loan.penalty_applied := by
  have hid : loan.id = p.loan_id := by
    unfold DB.find_loan at hfind
    have hpred := List.find?_some hfind
    simpa using hpred
  unfold payment_save
  rw [if_pos hst]
  have hfind0 : (db.save_payment_row p).find_loan p.loan_id = some loan := by
    rw [find_loan_save_payment_row]
    exact hfind
  rw [hfind0]
  simp only
  intro l2 hmem hl2
  rw [update_classification_loans, save_loan_loans] at hmem
  simp only [save_loan_loans, save_payment_row_loans, List.map_map] at hmem
  obtain ⟨l, hl, hl2eq⟩ := List.mem_map.mp hmem
  by_cases hcase : l.id = loan.id
  · have h1 : (if l.id = (allocate_to_penalty loan p.amount).1.id
        then (allocate_to_penalty loan p.amount).1 else l)
        = (allocate_to_penalty loan p.amount).1 := by
      rw [if_pos (by rw [allocate_to_penalty_id]; exact hcase)]
    rw [Function.comp_apply, h1,
        if_pos (by rw [refresh_loan_aggregates_id, allocate_to_penalty_id])] at hl2eq
    rw [← hl2eq, refresh_loan_aggregates_penalty,
        allocate_to_penalty_spec loan p.amount hpen hamt]
  · have h1 : (if l.id = (allocate_to_penalty loan p.amount).1.id
        then (allocate_to_penalty loan p.amount).1 else l) = l := by
      rw [if_neg (by rw [allocate_to_penalty_id]; exact hcase)]
    rw [Function.comp_apply, h1,
        if_neg (by rw [refresh_loan_aggregates_id, allocate_to_penalty_id]; exact hcase)] at hl2eq
    rw [← hl2eq] at hl2
    exact absurd (hl2.trans hid.symm) hcase

/-- C2: a completed payment allocates penalty-first — the loan row ends
with penalty_applied reduced by exactly min(amount, penalty_applied) —
and then distributes the remainder over eligible installments in strict
FIFO order: whenever any row gained money, every earlier eligible row
of the loan ends fully paid (no older unpaid installment is skipped);
concretely, three 100-sol installments and a 150-sol payment leave
installment 1 PAID at 100, installment 2 PARTIALLY_PAID at 50 and
installment 3 untouched. -/
theorem C2_payment_allocation_fifo (db : DB) (p : Payment) (today : Int)
    (loan : Loan) (hst : p.status = "COMPLETED")
    (hfind : db.find_loan p.loan_id = some loan)
    (hpen : 0 ≤ loan.penalty_applied) (hamt : 0 ≤ p.amount) :
    (∀ l2 ∈ (payment_save db p today).loans, l2.id = p.loan_id →
        l2.penalty_applied
          = loan.penalty_applied - min p.amount loan.penalty_applied) ∧
    (∀ (i j : Nat) (a b a2 b2 : Installment), i < j →
        db.installments[i]? = some a → db.installments[j]? = some b →
        (payment_save db p today).installments[i]? = some a2 →
        (payment_save db p today).installments[j]? = some b2 →
        a.loan_id = p.loan_id → eligible a = true →
        b.paid_amount < b2.paid_amount →
        a.total_amount ≤ a2.paid_amount) ∧
    (payment_save fifoDB fifoPayment 5).installments.map
        (fun k => (k.installment_number, k.paid_amount, k.status))
      = [(1, 100, "PAID"), (2, 50, "PARTIALLY_PAID"), (3, 0, "PENDING")] := by
  refine ⟨payment_save_loans_spec db p today loan hst hfind hpen hamt, ?_, ?_⟩
  · intro i j a b a2 b2 hij ha hb ha2 hb2 hlid helig hpaid
    rcases payment_save_installments_spec db p today loan hst hfind with hcase | hcase
    · rw [hcase] at hb2
      rw [hb] at hb2
      have hbb : b = b2 := by injection hb2
      rw [← hbb] at hpaid
      exact absurd hpaid (lt_irrefl _)
    · rw [hcase] at ha2 hb2
      exact distribute_no_skip today p.id p.loan_id db.installments
        (allocate_to_penalty loan p.amount).2 db.payment_installments
        (allocate_to_penalty_remaining_nonneg loan p.amount hamt)
        i j a b a2 b2 hij ha hb ha2 hb2 hlid helig hpaid
  · norm_num [payment_save, fifoDB, fifoPayment, fifoLoan, fifoInstallment,
      exampleLoan, DB.save_payment_row, DB.find_loan, DB.save_loan,
      allocate_to_penalty, refresh_loan_aggregates, distribute, eligible,
      upsert_pi, Installment.update_status, DB.update_classification,
      DB.client_loan_statuses, classify]

/-- Witness for C2: the reference 150-sol payment over three pending
100-sol installments. -/
theorem C2_payment_allocation_fifo_witness :
    (fifoPayment.status = "COMPLETED" ∧
      fifoDB.find_loan fifoPayment.loan_id = some fifoLoan ∧
      0 ≤ fifoLoan.penalty_applied ∧ 0 ≤ fifoPayment.amount) ∧
    (payment_save fifoDB fifoPayment 5).installments.map
        (fun k => (k.installment_number, k.paid_amount, k.status))
      = [(1, 100, "PAID"), (2, 50, "PARTIALLY_PAID"), (3, 0, "PENDING")] :=
  ⟨⟨rfl, by norm_num [fifoDB, fifoLoan, fifoPayment, exampleLoan, DB.find_loan],
    by norm_num [fifoLoan, exampleLoan],
    by norm_num [fifoPayment]⟩,
   (C2_payment_allocation_fifo fifoDB fifoPayment 5 fifoLoan rfl
      (by norm_num [fifoDB, fifoLoan, fifoPayment, exampleLoan, DB.find_loan])
      (by norm_num [fifoLoan, exampleLoan])
      (by norm_num [fifoPayment])).2.2⟩

/-- C3 (code evaluated at the failing input): allocation does not fire
exactly once.  A 40-sol completed payment is registered against the
300-sol loan, leaving paid_amount 40; then update_payment editing ONLY
the notes calls Payment.save again, which re-runs the allocation with
the same 40 sol, leaving the loan's paid_amount at 80 although only 40
was ever received. -/
theorem C3_update_payment_reapplies_allocation :
    (create_payment fifoDB 1 40 5 7 [] [⟨"CASH", 40⟩] none 5).2.success = true ∧
    (create_payment fifoDB 1 40 5 7 [] [⟨"CASH", 40⟩] none 5).1.loans.map
        Loan.paid_amount = [40] ∧
    (update_payment (create_payment fifoDB 1 40 5 7 [] [⟨"CASH", 40⟩] none 5).1 1
        none none none (some "nota") 5).2.success = true ∧
    (update_payment (create_payment fifoDB 1 40 5 7 [] [⟨"CASH", 40⟩] none 5).1 1
        none none none (some "nota") 5).1.loans.map Loan.paid_amount = [80] := by
  norm_num [create_payment, update_payment, payment_save, apply_selected,
    create_pi, next_payment_id, fifoDB, fifoPayment, fifoLoan, fifoInstallment,
    exampleLoan, DB.save_payment_row, DB.find_loan, DB.save_loan,
    allocate_to_penalty, refresh_loan_aggregates, distribute, eligible,
    upsert_pi, Installment.update_status, DB.update_classification,
    DB.client_loan_statuses, classify, Loan.calculate_penalty]

/-- C4 (code evaluated at the failing input): create_payment never
checks that the amount is positive.  A payment of -10 sol (with a
matching -10 method split) against the 300-sol loan passes every
validation, is persisted with status COMPLETED, and drives the loan's
paid_amount to -10 and its pending_amount to 310. -/
theorem C4_nonpositive_payment_accepted :
    (create_payment fifoDB 1 (-10) 5 7 [] [⟨"CASH", -10⟩] none 5).2.success = true ∧
    (create_payment fifoDB 1 (-10) 5 7 [] [⟨"CASH", -10⟩] none 5).1.payments.map
        Payment.amount = [-10] ∧
    (create_payment fifoDB 1 (-10) 5 7 [] [⟨"CASH", -10⟩] none 5).1.loans.map
        Loan.paid_amount = [-10] ∧
    (create_payment fifoDB 1 (-10) 5 7 [] [⟨"CASH", -10⟩] none 5).1.loans.map
        Loan.pending_amount = [310] := by
  norm_num [create_payment, payment_save, apply_selected, create_pi,
    next_payment_id, fifoDB, fifoLoan, fifoInstallment, exampleLoan,
    DB.save_payment_row, DB.find_loan, DB.save_loan, allocate_to_penalty,
    refresh_loan_aggregates, distribute, eligible, upsert_pi,
    Installment.update_status, DB.update_classification,
    DB.client_loan_statuses, classify, Loan.calculate_penalty]

/-- C8 counterexample: loan 1 belongs to company 1, yet the code's
delete_loan — which accepts no tenant identity at all, so an invocation
on behalf of company 2 is this very call — succeeds and removes it,
while the spec-side tenant-scoped variant invoked by company 2 refuses
and leaves the database unchanged. -/
theorem C8_cross_tenant_counterexample :
    (delete_loan twoTenantDB 1).2.success = true ∧
    (delete_loan twoTenantDB 1).1.loans = [] ∧
    (delete_loan_tenant_scoped twoTenantDB 2 1).2.success = false ∧
    (delete_loan_tenant_scoped twoTenantDB 2 1).1 = twoTenantDB := by
  norm_num [delete_loan, delete_loan_tenant_scoped, twoTenantDB, fifoLoan,
    fifoInstallment, exampleLoan, DB.find_loan]

/-- C8 amended: create_payment is tenant-scoped through the collector —
a collector id that does not belong to the loan's company is rejected
with nothing persisted — but update_loan and delete_loan accept no
tenant identifier and look the loan up by primary key alone, so any
caller reaching them reads and mutates loans of any company. -/
theorem C8_tenant_scoping_amended :
    (∀ (db : DB) (loan_id : Nat) (amount : ℚ) (payment_date : Int)
        (collector_id : Nat) (installment_ids : List Nat)
        (payment_methods : List PaymentMethodInput) (notes : Option String)
        (today : Int) (loan : Loan),
      db.find_loan loan_id = some loan →
      (∀ u ∈ db.users, ¬ (u.id = collector_id ∧ u.company_id = loan.company_id)) →
      create_payment db loan_id amount payment_date collector_id
          installment_ids payment_methods notes today
        = (db, ⟨false, "Cobrador no encontrado"⟩)) ∧
    ((delete_loan twoTenantDB 1).2.success = true ∧
      (delete_loan twoTenantDB 1).1.loans = []) ∧
    ((update_loan twoTenantDB 1 none none none none none none none none
        (some "editado") none).2.success = true ∧
      (update_loan twoTenantDB 1 none none none none none none none none
          (some "editado") none).1.loans.map Loan.observations = [some "editado"]) := by
  refine ⟨?_, ?_, ?_⟩
  · intro db loan_id amount payment_date collector_id installment_ids
      payment_methods notes today loan hfind hcol
    unfold create_payment
    rw [hfind]
    have hnone : db.users.find?
        (fun u => u.id = collector_id ∧ u.company_id = loan.company_id) = none :=
      List.find?_eq_none.mpr (fun u hu => by simpa using hcol u hu)
    simp only [hnone]
  · constructor <;>
      norm_num [delete_loan, twoTenantDB, fifoLoan, fifoInstallment,
        exampleLoan, DB.find_loan]
  · constructor <;>
      norm_num [update_loan, twoTenantDB, fifoLoan, fifoInstallment,
        exampleLoan, DB.find_loan, DB.save_loan, Loan.save_update,
        Loan.calculate_total_amount]

/-- Witness for the amended C8: collector 99 belongs to company 2, the
loan to company 1; registering a payment through that collector is
rejected with the two-tenant database unchanged. -/
theorem C8_tenant_scoping_amended_witness :
    (twoTenantDB.find_loan 1 = some fifoLoan ∧
      (∀ u ∈ twoTenantDB.users, ¬ (u.id = 99 ∧ u.company_id = fifoLoan.company_id))) ∧
    create_payment twoTenantDB 1 50 5 99 [] [⟨"CASH", 50⟩] none 5
      = (twoTenantDB, ⟨false, "Cobrador no encontrado"⟩) :=
  ⟨⟨by norm_num [DB.find_loan, twoTenantDB, fifoLoan, exampleLoan],
    by norm_num [twoTenantDB, fifoLoan, exampleLoan]⟩,
   C8_tenant_scoping_amended.1 twoTenantDB 1 50 5 99 [] [⟨"CASH", 50⟩] none 5
     fifoLoan (by norm_num [DB.find_loan, twoTenantDB, fifoLoan, exampleLoan])
     (by norm_num [twoTenantDB, fifoLoan, exampleLoan])⟩

end Prestoras
